import Mathlib

/-!
Verification of `automation/autogenerate_notebooks_table.py`.

The script is a linear pipeline: parse CSV lines into `TableEntry` records,
render them as Markdown table lines, splice those lines between two sentinel
marker lines of a README, and write the result back.  We embed the pure core
of the script (everything except file I/O) and prove the specified properties.

Strings are modelled by Lean `String`; Python list slicing `xs[:n]` / `xs[n:]`
becomes `List.take` / `List.drop`; a raised exception becomes `Except.error`
carrying a `PyError` value that records the raise site and its message.
-/

namespace Notebooks

/-- The characters stripped by Python `str.strip()` with no argument. -/
def isPyWhitespace (c : Char) : Bool :=
  c = ' ' || c = '\t' || c = '\n' || c = '\r' || c = '\x0b' || c = '\x0c'

/-- Python `str.strip()`: drop leading and trailing whitespace. -/
def pyStrip (s : String) : String :=
  String.mk (((s.toList.dropWhile isPyWhitespace).reverse.dropWhile isPyWhitespace).reverse)

/-- Python `str.lower()` (ASCII lowering suffices for the section tags). -/
def pyLower (s : String) : String :=
  String.mk (s.toList.map Char.toLower)

/-- Python `str.split(d)` for a one-character delimiter: split at every
occurrence, keeping empty fields (`"".split(",") == [""]`). -/
def pySplit (delim : Char) : List Char → List (List Char)
  | [] => [[]]
  | c :: rest =>
      let r := pySplit delim rest
      if c = delim then [] :: r
      else
        match r with
        | [] => [[c]]
        | h :: t => (c :: h) :: t

/-- `csv_line.split(",")` of the script. -/
def split_csv (s : String) : List String :=
  (pySplit ',' s.toList).map String.mk

def NOTEBOOKS_ROOT_PATH : String :=
  "https://github.com/roboflow-ai/notebooks/blob/main/notebooks"

def NOTEBOOKS_COLAB_ROOT_PATH : String :=
  "github/roboflow-ai/notebooks/blob/main/notebooks"

def WARNING_HEADER : List String :=
  ["<!---",
   "   WARNING: DO NOT EDIT THIS TABLE MANUALLY. IT IS AUTOMATICALLY GENERATED.",
   "   HEAD OVER TO CONTRIBUTING.MD FOR MORE DETAILS ON HOW TO MAKE CHANGES PROPERLY.",
   "-->"]

def TABLE_HEADER : List String :=
  ["| **notebook** | **colab / kaggle** | **blog / youtube** | **repository / paper** |",
   "|:------------:|:-------------------------------------------------:|:---------------------------:|:----------------------:|"]

/-- `MODELS_SECTION_HEADER.format(n)` of the script. -/
def MODELS_SECTION_HEADER (n : Nat) : String :=
  "## Model Experiments (" ++ toString n ++ " notebooks)"

/-- `APPLIED_SECTION_HEADER.format(n)` of the script. -/
def APPLIED_SECTION_HEADER (n : Nat) : String :=
  "## Applied computer vision in real world scenarios (" ++ toString n ++ " notebooks)"

/-- `NOTEBOOK_LINK_PATTERN.format(display, root, nb)`. -/
def NOTEBOOK_LINK_PATTERN (display root nb : String) : String :=
  "[" ++ display ++ "](" ++ root ++ "/" ++ nb ++ ")"

/-- `OPEN_IN_COLAB_BADGE_PATTERN.format(root, nb)`. -/
def OPEN_IN_COLAB_BADGE_PATTERN (root nb : String) : String :=
  "[![Colab](https://colab.research.google.com/assets/colab-badge.svg)](https://colab.research.google.com/"
    ++ root ++ "/" ++ nb ++ ")"

/-- `OPEN_IN_KAGGLE_BADGE_PATTERN.format(root, nb)`. -/
def OPEN_IN_KAGGLE_BADGE_PATTERN (root nb : String) : String :=
  "[![Kaggle](https://kaggle.com/static/images/open-in-kaggle.svg)](https://kaggle.com/kernels/welcome?src="
    ++ root ++ "/" ++ nb ++ ")"

/-- `ROBOFLOW_BADGE_PATTERN.format(path)`. -/
def ROBOFLOW_BADGE_PATTERN (path : String) : String :=
  "[![Roboflow](https://raw.githubusercontent.com/roboflow-ai/notebooks/main/assets/badges/roboflow-blogpost.svg)]("
    ++ path ++ ")"

/-- `YOUTUBE_BADGE_PATTERN.format(path)`. -/
def YOUTUBE_BADGE_PATTERN (path : String) : String :=
  "[![YouTube](https://badges.aleen42.com/src/youtube.svg)](" ++ path ++ ")"

/-- `GITHUB_BADGE_PATTERN.format(path)`. -/
def GITHUB_BADGE_PATTERN (path : String) : String :=
  "[![GitHub](https://badges.aleen42.com/src/github.svg)](" ++ path ++ ")"

/-- `ARXIV_BADGE_PATTERN.format(idx, idx)`: the index is substituted twice. -/
def ARXIV_BADGE_PATTERN (idx : String) : String :=
  "[![arXiv](https://img.shields.io/badge/arXiv-" ++ idx ++ "-b31b1b.svg)](https://arxiv.org/abs/"
    ++ idx ++ ")"

def AUTOGENERATED_NOTEBOOKS_TABLE_TOKEN : String :=
  "<!--- AUTOGENERATED-NOTEBOOKS-TABLE -->"

/-- The exceptions the script can raise, by raise site. -/
inductive PyError where
  | malformedRecord : PyError
  | invalidSection (value : String) : PyError
  | markerCount (token : String) : PyError
deriving DecidableEq, Repr

/-- The message text attached to each exception (the `invalidSection` text is
Python's `ValueError` for an enum lookup miss, quotes omitted). -/
def PyError.message : PyError → String
  | PyError.malformedRecord => "Every csv line must contain 7 fields"
  | PyError.invalidSection v => v ++ " is not a valid READMESection"
  | PyError.markerCount token =>
      "Please inject two " ++ token ++ " tokens to signal start and end of autogenerated table."

/-- `class READMESection(Enum)` with values `models` and `applied`. -/
inductive READMESection where
  | models : READMESection
  | applied : READMESection
deriving DecidableEq, Repr

/-- The `value` attribute of each enum member. -/
def READMESection.value : READMESection → String
  | READMESection.models => "models"
  | READMESection.applied => "applied"

/-- `READMESection(v)`: Python's by-value enum lookup, case sensitive, raising
`ValueError` on a miss.  This is what `TableEntry.from_csv_line` calls. -/
def READMESection.ofValue (v : String) : Except PyError READMESection :=
  if v = "models" then Except.ok READMESection.models
  else if v = "applied" then Except.ok READMESection.applied
  else Except.error (PyError.invalidSection v)

/-- `READMESection.from_value(v)`: lower-cases before the lookup and wraps a
miss in a message naming the valid set.  Defined by the script but never
called by it. -/
def READMESection.from_value (v : String) : Except String READMESection :=
  match READMESection.ofValue (pyLower v) with
  | Except.ok s => Except.ok s
  | Except.error _ =>
      Except.error ("READMESection must be one of [models, applied], " ++ v ++ " given.")

/-- The `TableEntry` dataclass.  The four optional fields are always built from
CSV fields, hence strings; Python truthiness on them is emptiness. -/
structure TableEntry where
  display_name : String
  notebook_name : String
  roboflow_blogpost_path : String
  youtube_video_path : String
  github_repository_path : String
  arxiv_index : String
  readme_section : READMESection
deriving DecidableEq, Repr

/-- `TableEntry.from_csv_line`: split on commas, strip each field, require
exactly 7 fields, then build the record (the section tag goes through the
case-sensitive `READMESection(...)` constructor). -/
def TableEntry.from_csv_line (csv_line : String) : Except PyError TableEntry :=
  match (split_csv csv_line).map pyStrip with
  | [a, b, c, d, e, f, g] =>
      match READMESection.ofValue g with
      | Except.ok sec => Except.ok ⟨a, b, c, d, e, f, sec⟩
      | Except.error err => Except.error err
  | _ => Except.error PyError.malformedRecord

/-- `TableEntry.format`: render one Markdown table row. -/
def TableEntry.format (entry : TableEntry) : String :=
  let notebook_link :=
    NOTEBOOK_LINK_PATTERN entry.display_name NOTEBOOKS_ROOT_PATH entry.notebook_name
  let open_in_colab_badge :=
    OPEN_IN_COLAB_BADGE_PATTERN NOTEBOOKS_COLAB_ROOT_PATH entry.notebook_name
  let open_in_kaggle_badge :=
    OPEN_IN_KAGGLE_BADGE_PATTERN NOTEBOOKS_ROOT_PATH entry.notebook_name
  let roboflow_badge :=
    if entry.roboflow_blogpost_path ≠ "" then ROBOFLOW_BADGE_PATTERN entry.roboflow_blogpost_path else ""
  let youtube_badge :=
    if entry.youtube_video_path ≠ "" then YOUTUBE_BADGE_PATTERN entry.youtube_video_path else ""
  let github_badge :=
    if entry.github_repository_path ≠ "" then GITHUB_BADGE_PATTERN entry.github_repository_path else ""
  let arxiv_badge :=
    if entry.arxiv_index ≠ "" then ARXIV_BADGE_PATTERN entry.arxiv_index else ""
  "| " ++ notebook_link ++ " | " ++ open_in_colab_badge ++ " " ++ open_in_kaggle_badge
    ++ " | " ++ roboflow_badge ++ " " ++ youtube_badge
    ++ " | " ++ github_badge ++ " " ++ arxiv_badge ++ "|"

/-- Boolean substring test on character lists: does `needle` occur as a
contiguous run inside the second list? -/
def hasInfix (needle : List Char) : List Char → Bool
  | [] => needle.isEmpty
  | c :: rest => needle.isPrefixOf (c :: rest) || hasInfix needle rest

/-- Python `token in line`: substring containment. -/
def containsToken (token line : String) : Bool :=
  hasInfix token.toList line.toList

/-- The loop body of `search_lines_with_token`, carrying the running index of
`enumerate`. -/
def search_from (token : String) (idx : Nat) : List String → List Nat
  | [] => []
  | line :: rest =>
      if containsToken token line then idx :: search_from token (idx + 1) rest
      else search_from token (idx + 1) rest

/-- `search_lines_with_token`: indexes of all lines containing the token. -/
def search_lines_with_token (lines : List String) (token : String) : List Nat :=
  search_from token 0 lines

/-- `inject_markdown_table_into_readme`: require exactly two marker lines, then
return `readme[:start+1] + table + readme[end:]`. -/
def inject_markdown_table_into_readme (readme_lines table_lines : List String) :
    Except PyError (List String) :=
  match search_lines_with_token readme_lines AUTOGENERATED_NOTEBOOKS_TABLE_TOKEN with
  | [table_start_line_index, table_end_line_index] =>
      Except.ok (readme_lines.take (table_start_line_index + 1) ++ table_lines
        ++ readme_lines.drop table_end_line_index)
  | _ => Except.error (PyError.markerCount AUTOGENERATED_NOTEBOOKS_TABLE_TOKEN)

/-- `parse_csv_lines`: the list comprehension raises at the first bad line. -/
def parse_csv_lines : List String → Except PyError (List TableEntry)
  | [] => Except.ok []
  | l :: ls =>
      match TableEntry.from_csv_line l with
      | Except.error e => Except.error e
      | Except.ok t =>
          match parse_csv_lines ls with
          | Except.error e => Except.error e
          | Except.ok ts => Except.ok (t :: ts)

/-- The table-building part of `__main__`: filter each section, format each
entry, and concatenate banner, headers and rows in the fixed order. -/
def build_table_lines (table_entries : List TableEntry) : List String :=
  let models_lines :=
    (table_entries.filter (fun entry => entry.readme_section == READMESection.models)).map
      TableEntry.format
  let applied_lines :=
    (table_entries.filter (fun entry => entry.readme_section == READMESection.applied)).map
      TableEntry.format
  WARNING_HEADER
    ++ [ MODELS_SECTION_HEADER models_lines.length] ++ TABLE_HEADER ++ models_lines
    ++ [ APPLIED_SECTION_HEADER applied_lines.length] ++ TABLE_HEADER ++ applied_lines

/-- The pure part of `__main__` after reading both files: parse, build, inject.
`save_lines_to_file` runs only on an `ok` result. -/
def run_pipeline (csv_lines readme_lines : List String) : Except PyError (List String) :=
  match parse_csv_lines csv_lines with
  | Except.error e => Except.error e
  | Except.ok table_entries =>
      inject_markdown_table_into_readme readme_lines (build_table_lines table_entries)

/-- The line sequences `__main__` writes to the README path: the final
`save_lines_to_file` call happens only after every earlier step succeeded, so
an error leaves this empty. -/
def written_files (csv_lines readme_lines : List String) : List (List String) :=
  match run_pipeline csv_lines readme_lines with
  | Except.ok lines => [lines]
  | Except.error _ => []

/-- Number of lines of a document containing the sentinel token. -/
def count_marker_lines (lines : List String) : Nat :=
  (lines.filter (fun line => containsToken AUTOGENERATED_NOTEBOOKS_TABLE_TOKEN line)).length

/-- Split a character list at the first occurrence of the two-character
delimiter `](` of the link pattern, dropping the delimiter. -/
def splitAtLinkDelim : List Char → Option (List Char × List Char)
  | [] => none
  | c :: rest =>
      if c = ']' ∧ rest.head? = some '(' then some ([], rest.tail)
      else
        match splitAtLinkDelim rest with
        | some (pre, post) => some (c :: pre, post)
        | none => none

/-- Re-parse a rendered display link against the pattern
`[{display}]({root}/{notebook})` with the fixed notebooks root: recover the
display name up to the first `](` and the notebook name between the root
prefix and the final closing parenthesis. -/
def parse_notebook_link (s : String) : Option (String × String) :=
  match s.toList with
  | [] => none
  | c :: rest =>
      if c = '[' then
        match splitAtLinkDelim rest with
        | some (display_chars, rest2) =>
            let rootSlash := (NOTEBOOKS_ROOT_PATH ++ "/").toList
            if rootSlash.isPrefixOf rest2 then
              let tail := rest2.drop rootSlash.length
              if tail.getLast? = some ')' then
                some (String.mk display_chars, String.mk tail.dropLast)
              else none
            else none
        | none => none
      else none

/-! ### Basic lemmas about the marker search -/

lemma hasInfix_correct (needle : List Char) (l : List Char) :
    hasInfix needle l = true ↔ needle <:+: l := by
  induction l with
  | nil => simp [hasInfix, List.isEmpty_iff, List.infix_nil]
  | cons c rest ih =>
      simp [hasInfix, Bool.or_eq_true, List.isPrefixOf_iff_prefix, ih, List.infix_cons_iff]

lemma containsToken_correct (token line : String) :
    containsToken token line = true ↔ token.toList <:+: line.toList :=
  hasInfix_correct token.toList line.toList

lemma search_from_append (token : String) (i : Nat) (xs ys : List String) :
    search_from token i (xs ++ ys)
      = search_from token i xs ++ search_from token (i + xs.length) ys := by
  induction xs generalizing i with
  | nil => simp [search_from]
  | cons x xs ih =>
      have hlen : i + (xs.length + 1) = i + 1 + xs.length := by omega
      by_cases h : containsToken token x <;>
        simp [search_from, h, ih, List.length_cons, hlen]

lemma search_from_eq_nil (token : String) (i : Nat) (xs : List String)
    (h : ∀ l ∈ xs, containsToken token l = false) : search_from token i xs = [] := by
  induction xs generalizing i with
  | nil => rfl
  | cons x xs ih =>
      have hx := h x (List.mem_cons_self x xs)
      simp [search_from, hx, ih (i + 1) (fun l hl => h l (List.mem_cons_of_mem x hl))]

lemma length_search_from (token : String) (i : Nat) (xs : List String) :
    (search_from token i xs).length
      = (xs.filter (fun line => containsToken token line)).length := by
  induction xs generalizing i with
  | nil => rfl
  | cons x xs ih =>
      by_cases hx : containsToken token x <;>
        simp [search_from, hx, List.filter_cons, ih]

lemma le_of_mem_search_from (token : String) (i : Nat) (xs : List String) (j : Nat)
    (h : j ∈ search_from token i xs) : i ≤ j := by
  induction xs generalizing i with
  | nil => simp [search_from] at h
  | cons x xs ih =>
      by_cases hx : containsToken token x
      · simp only [search_from, hx, if_pos, List.mem_cons] at h
        rcases h with rfl | h
        · exact Nat.le_refl j
        · exact Nat.le_of_succ_le (ih (i + 1) h)
      · simp only [search_from, hx] at h
        simp at h
        exact Nat.le_of_succ_le (ih (i + 1) h)

lemma pairwise_lt_search_from (token : String) (i : Nat) (xs : List String) :
    List.Pairwise (fun a b => a < b) (search_from token i xs) := by
  induction xs generalizing i with
  | nil => simp [search_from]
  | cons x xs ih =>
      by_cases hx : containsToken token x
      · simp only [search_from, hx, if_pos]
        refine List.Pairwise.cons ?_ (ih (i + 1))
        intro b hb
        exact Nat.lt_of_succ_le (le_of_mem_search_from token (i + 1) xs b hb)
      · simp only [search_from, hx]
        simpa using ih (i + 1)

lemma mem_search_from_iff (token : String) (i : Nat) (xs : List String) (j : Nat) :
    j ∈ search_from token i xs ↔
      ∃ k, ∃ hk : k < xs.length, j = i + k ∧
        containsToken token (xs.get ⟨k, hk⟩) = true := by
  induction xs generalizing i with
  | nil => simp [search_from]
  | cons x xs ih =>
      constructor
      · intro h
        by_cases hx : containsToken token x
        · simp only [search_from, hx, if_pos, List.mem_cons] at h
          rcases h with rfl | h
          · exact ⟨0, Nat.succ_pos xs.length, by omega, hx⟩
          · rcases (ih (i + 1)).mp h with ⟨k, hk, hj, hc⟩
            exact ⟨k + 1, Nat.succ_lt_succ hk, by omega, by simpa using hc⟩
        · simp only [search_from, hx] at h
          simp at h
          rcases (ih (i + 1)).mp h with ⟨k, hk, hj, hc⟩
          exact ⟨k + 1, Nat.succ_lt_succ hk, by omega, by simpa using hc⟩
      · rintro ⟨k, hk, rfl, hc⟩
        cases k with
        | zero =>
            have hx : containsToken token x = true := by simpa using hc
            simp [search_from, hx]
        | succ k =>
            have hmem : i + (k + 1) ∈ search_from token (i + 1) xs := by
              refine (ih (i + 1)).mpr ⟨k, ?_, by omega, ?_⟩
              · exact Nat.lt_of_succ_lt_succ hk
              · simpa using hc
            by_cases hx : containsToken token x <;>
              simp [search_from, hx, hmem]

/-! ### Decomposing a document by its marker lines -/

lemma filter_length_eq_one {α : Type} (p : α → Bool) (l : List α)
    (h : (l.filter p).length = 1) :
    ∃ pre b post, l = pre ++ b :: post ∧ p b = true ∧
      (∀ x ∈ pre, p x = false) ∧ (∀ x ∈ post, p x = false) := by
  induction l with
  | nil => simp at h
  | cons a l ih =>
      by_cases ha : p a
      · have hnil : l.filter p = [] := by simpa [List.filter_cons, ha] using h
        have hall := List.filter_eq_nil_iff.mp hnil
        refine ⟨[], a, l, by simp, ha, by simp, ?_⟩
        intro x hx
        simpa using hall x hx
      · have h1 : (l.filter p).length = 1 := by simpa [List.filter_cons, ha] using h
        rcases ih h1 with ⟨pre, b, post, rfl, hb, hpre, hpost⟩
        refine ⟨a :: pre, b, post, by simp, hb, ?_, hpost⟩
        intro x hx
        rcases List.mem_cons.mp hx with rfl | hx
        · simpa using ha
        · exact hpre x hx

lemma filter_length_eq_two {α : Type} (p : α → Bool) (l : List α)
    (h : (l.filter p).length = 2) :
    ∃ pre a mid b post, l = pre ++ a :: (mid ++ b :: post) ∧ p a = true ∧ p b = true ∧
      (∀ x ∈ pre, p x = false) ∧ (∀ x ∈ mid, p x = false) ∧ (∀ x ∈ post, p x = false) := by
  induction l with
  | nil => simp at h
  | cons a l ih =>
      by_cases ha : p a
      · have h1 : (l.filter p).length = 1 := by
          simp [List.filter_cons, ha] at h
          omega
        rcases filter_length_eq_one p l h1 with ⟨mid, b, post, rfl, hb, hmid, hpost⟩
        exact ⟨[], a, mid, b, post, by simp, ha, hb, by simp, hmid, hpost⟩
      · have h2 : (l.filter p).length = 2 := by simpa [List.filter_cons, ha] using h
        rcases ih h2 with ⟨pre, x, mid, b, post, rfl, hx, hb, hpre, hmid, hpost⟩
        refine ⟨a :: pre, x, mid, b, post, by simp, hx, hb, ?_, hmid, hpost⟩
        intro y hy
        rcases List.mem_cons.mp hy with rfl | hy
        · simpa using ha
        · exact hpre y hy

/-! ### Behaviour of the splice on a decomposed document -/

lemma search_two_markers (pre mid post : List String) (L1 L2 : String)
    (hpre : ∀ l ∈ pre, containsToken AUTOGENERATED_NOTEBOOKS_TABLE_TOKEN l = false)
    (hmid : ∀ l ∈ mid, containsToken AUTOGENERATED_NOTEBOOKS_TABLE_TOKEN l = false)
    (hpost : ∀ l ∈ post, containsToken AUTOGENERATED_NOTEBOOKS_TABLE_TOKEN l = false)
    (h1 : containsToken AUTOGENERATED_NOTEBOOKS_TABLE_TOKEN L1 = true)
    (h2 : containsToken AUTOGENERATED_NOTEBOOKS_TABLE_TOKEN L2 = true) :
    search_lines_with_token (pre ++ L1 :: (mid ++ L2 :: post))
        AUTOGENERATED_NOTEBOOKS_TABLE_TOKEN
      = [pre.length, pre.length + 1 + mid.length] := by
  unfold search_lines_with_token
  rw [search_from_append]
  rw [search_from_eq_nil _ _ _ hpre]
  simp only [List.nil_append, Nat.zero_add]
  have hcons : search_from AUTOGENERATED_NOTEBOOKS_TABLE_TOKEN pre.length
      (L1 :: (mid ++ L2 :: post))
      = pre.length :: search_from AUTOGENERATED_NOTEBOOKS_TABLE_TOKEN (pre.length + 1)
          (mid ++ L2 :: post) := by
    simp [search_from, h1]
  rw [hcons, search_from_append, search_from_eq_nil _ _ _ hmid]
  simp only [List.nil_append]
  have htail : search_from AUTOGENERATED_NOTEBOOKS_TABLE_TOKEN (pre.length + 1 + mid.length)
      (L2 :: post)
      = [pre.length + 1 + mid.length] := by
    simp [search_from, h2, search_from_eq_nil _ _ _ hpost]
  rw [htail]

lemma inject_on_shape (pre mid post table : List String) (L1 L2 : String)
    (hpre : ∀ l ∈ pre, containsToken AUTOGENERATED_NOTEBOOKS_TABLE_TOKEN l = false)
    (hmid : ∀ l ∈ mid, containsToken AUTOGENERATED_NOTEBOOKS_TABLE_TOKEN l = false)
    (hpost : ∀ l ∈ post, containsToken AUTOGENERATED_NOTEBOOKS_TABLE_TOKEN l = false)
    (h1 : containsToken AUTOGENERATED_NOTEBOOKS_TABLE_TOKEN L1 = true)
    (h2 : containsToken AUTOGENERATED_NOTEBOOKS_TABLE_TOKEN L2 = true) :
    inject_markdown_table_into_readme (pre ++ L1 :: (mid ++ L2 :: post)) table
      = Except.ok (pre ++ L1 :: (table ++ L2 :: post)) := by
  have htake : (pre ++ L1 :: (mid ++ L2 :: post)).take (pre.length + 1) = pre ++ [L1] := by
    simpa using @List.take_append _ pre (L1 :: (mid ++ L2 :: post)) 1
  have hshape : pre ++ L1 :: (mid ++ L2 :: post) = (pre ++ L1 :: mid) ++ (L2 :: post) := by
    simp
  have hlen : pre.length + 1 + mid.length = (pre ++ L1 :: mid).length := by
    simp [List.length_append, List.length_cons]
    omega
  have hdrop : (pre ++ L1 :: (mid ++ L2 :: post)).drop (pre.length + 1 + mid.length)
      = L2 :: post := by
    rw [hshape, hlen, List.drop_left]
  unfold inject_markdown_table_into_readme
  rw [search_two_markers pre mid post L1 L2 hpre hmid hpost h1 h2]
  simp only [htake, hdrop]
  simp

/-! ### The marker-count guard -/

lemma count_eq_length_search (readme : List String) :
    count_marker_lines readme
      = (search_lines_with_token readme AUTOGENERATED_NOTEBOOKS_TABLE_TOKEN).length := by
  rw [count_marker_lines, search_lines_with_token, length_search_from]

lemma inject_error_of_count_ne (readme table : List String)
    (h : count_marker_lines readme ≠ 2) :
    inject_markdown_table_into_readme readme table
      = Except.error (PyError.markerCount AUTOGENERATED_NOTEBOOKS_TABLE_TOKEN) := by
  have hlen : (search_lines_with_token readme AUTOGENERATED_NOTEBOOKS_TABLE_TOKEN).length ≠ 2 := by
    rw [← count_eq_length_search]
    exact h
  unfold inject_markdown_table_into_readme
  rcases hs : search_lines_with_token readme AUTOGENERATED_NOTEBOOKS_TABLE_TOKEN with
    _ | ⟨a, _ | ⟨b, _ | ⟨c, rest⟩⟩⟩
  · rfl
  · rfl
  · exact absurd (by simp [hs]) hlen
  · rfl

lemma inject_ok_iff (readme table : List String) :
    (∃ out, inject_markdown_table_into_readme readme table = Except.ok out) ↔
      count_marker_lines readme = 2 := by
  constructor
  · rintro ⟨out, hout⟩
    by_contra hne
    rw [inject_error_of_count_ne readme table hne] at hout
    simp at hout
  · intro h2
    have hlen : (search_lines_with_token readme AUTOGENERATED_NOTEBOOKS_TABLE_TOKEN).length = 2 := by
      rw [← count_eq_length_search]
      exact h2
    rcases hs : search_lines_with_token readme AUTOGENERATED_NOTEBOOKS_TABLE_TOKEN with
      _ | ⟨a, _ | ⟨b, _ | ⟨c, rest⟩⟩⟩
    · simp [hs] at hlen
    · simp [hs] at hlen
    · refine ⟨readme.take (a + 1) ++ table ++ readme.drop b, ?_⟩
      unfold inject_markdown_table_into_readme
      rw [hs]
    · simp [hs] at hlen

/-! ### Claim theorems: the splice -/

/-- C1: on a document with exactly two sentinel lines, the splice returns all
lines up to and including the first token-containing line, then the table
lines, then all lines from the second token-containing line through the end;
the second marker line is preserved verbatim and every line outside the
spliced region is unchanged. -/
theorem inject_splices_between_markers
    (pre mid post table : List String) (L1 L2 : String)
    (hpre : ∀ l ∈ pre, containsToken AUTOGENERATED_NOTEBOOKS_TABLE_TOKEN l = false)
    (hmid : ∀ l ∈ mid, containsToken AUTOGENERATED_NOTEBOOKS_TABLE_TOKEN l = false)
    (hpost : ∀ l ∈ post, containsToken AUTOGENERATED_NOTEBOOKS_TABLE_TOKEN l = false)
    (h1 : containsToken AUTOGENERATED_NOTEBOOKS_TABLE_TOKEN L1 = true)
    (h2 : containsToken AUTOGENERATED_NOTEBOOKS_TABLE_TOKEN L2 = true) :
    inject_markdown_table_into_readme (pre ++ L1 :: (mid ++ L2 :: post)) table
      = Except.ok (pre ++ L1 :: (table ++ L2 :: post)) :=
  inject_on_shape pre mid post table L1 L2 hpre hmid hpost h1 h2

/-- Witness for C1 at a concrete document and table. -/
theorem inject_splices_between_markers_witness :
    inject_markdown_table_into_readme
        (["a"] ++ AUTOGENERATED_NOTEBOOKS_TABLE_TOKEN
          :: (["old"] ++ AUTOGENERATED_NOTEBOOKS_TABLE_TOKEN :: ["b"])) ["T"]
      = Except.ok (["a"] ++ AUTOGENERATED_NOTEBOOKS_TABLE_TOKEN
          :: (["T"] ++ AUTOGENERATED_NOTEBOOKS_TABLE_TOKEN :: ["b"])) :=
  inject_splices_between_markers ["a"] ["old"] ["b"] ["T"]
    AUTOGENERATED_NOTEBOOKS_TABLE_TOKEN AUTOGENERATED_NOTEBOOKS_TABLE_TOKEN
    (by decide) (by decide) (by decide) (by decide) (by decide)

/-- C2: the splice succeeds exactly when the document has exactly two lines
containing the sentinel token; with any other count it raises the marker-count
error, whose message names the expected token. -/
theorem inject_requires_exactly_two_markers (readme table : List String) :
    ((∃ out, inject_markdown_table_into_readme readme table = Except.ok out) ↔
        count_marker_lines readme = 2) ∧
    (count_marker_lines readme ≠ 2 →
      inject_markdown_table_into_readme readme table
        = Except.error (PyError.markerCount AUTOGENERATED_NOTEBOOKS_TABLE_TOKEN)) ∧
    (∃ pre post, (PyError.markerCount AUTOGENERATED_NOTEBOOKS_TABLE_TOKEN).message
        = pre ++ AUTOGENERATED_NOTEBOOKS_TABLE_TOKEN ++ post) := by
  refine ⟨inject_ok_iff readme table, inject_error_of_count_ne readme table, ?_⟩
  exact ⟨"Please inject two ",
    " tokens to signal start and end of autogenerated table.", rfl⟩

/-- Witness for C2 at a document with zero marker lines. -/
theorem inject_requires_exactly_two_markers_witness :
    inject_markdown_table_into_readme ["no markers here"] ["T"]
      = Except.error (PyError.markerCount AUTOGENERATED_NOTEBOOKS_TABLE_TOKEN) :=
  (inject_requires_exactly_two_markers ["no markers here"] ["T"]).2.1 (by decide)

/-- C5: splicing is idempotent: if the document has exactly two sentinel lines
and no table line contains the token, the spliced result again has exactly two
sentinel lines, and splicing it again with the same table reproduces it. -/
theorem inject_idempotent (readme table result : List String)
    (htable : ∀ l ∈ table, containsToken AUTOGENERATED_NOTEBOOKS_TABLE_TOKEN l = false)
    (hcount : count_marker_lines readme = 2)
    (hrun : inject_markdown_table_into_readme readme table = Except.ok result) :
    count_marker_lines result = 2 ∧
      inject_markdown_table_into_readme result table = Except.ok result := by
  rcases filter_length_eq_two _ readme hcount with
    ⟨pre, L1, mid, L2, post, rfl, h1, h2, hpre, hmid, hpost⟩
  have hinj := inject_on_shape pre mid post table L1 L2 hpre hmid hpost h1 h2
  rw [hinj] at hrun
  obtain rfl : pre ++ L1 :: (table ++ L2 :: post) = result := Except.ok.inj hrun
  constructor
  · have hfpre : pre.filter
        (fun line => containsToken AUTOGENERATED_NOTEBOOKS_TABLE_TOKEN line) = [] :=
      List.filter_eq_nil_iff.mpr (fun x hx => by simp [hpre x hx])
    have hftab : table.filter
        (fun line => containsToken AUTOGENERATED_NOTEBOOKS_TABLE_TOKEN line) = [] :=
      List.filter_eq_nil_iff.mpr (fun x hx => by simp [htable x hx])
    have hfpost : post.filter
        (fun line => containsToken AUTOGENERATED_NOTEBOOKS_TABLE_TOKEN line) = [] :=
      List.filter_eq_nil_iff.mpr (fun x hx => by simp [hpost x hx])
    unfold count_marker_lines
    simp [List.filter_append, List.filter_cons, h1, h2, hfpre, hftab, hfpost]
  · exact inject_on_shape pre table post table L1 L2 hpre htable hpost h1 h2

/-- Witness for C5 at a concrete two-marker document. -/
theorem inject_idempotent_witness :
    count_marker_lines
        [AUTOGENERATED_NOTEBOOKS_TABLE_TOKEN, "T", AUTOGENERATED_NOTEBOOKS_TABLE_TOKEN] = 2 ∧
      inject_markdown_table_into_readme
          [AUTOGENERATED_NOTEBOOKS_TABLE_TOKEN, "T", AUTOGENERATED_NOTEBOOKS_TABLE_TOKEN] ["T"]
        = Except.ok
            [AUTOGENERATED_NOTEBOOKS_TABLE_TOKEN, "T", AUTOGENERATED_NOTEBOOKS_TABLE_TOKEN] :=
  inject_idempotent
    [AUTOGENERATED_NOTEBOOKS_TABLE_TOKEN, AUTOGENERATED_NOTEBOOKS_TABLE_TOKEN] ["T"]
    [AUTOGENERATED_NOTEBOOKS_TABLE_TOKEN, "T", AUTOGENERATED_NOTEBOOKS_TABLE_TOKEN]
    (by decide) (by decide) (by rfl)

/-- C10: the marker search returns the strictly increasing list of indexes of
lines containing the token as a substring; a line containing the token twice
contributes one index, so a document whose two token occurrences share one
line fails the exactly-two-markers check. -/
theorem search_lines_with_token_spec (lines : List String) (token : String) :
    (∀ i, i ∈ search_lines_with_token lines token ↔
        ∃ h : i < lines.length, token.toList <:+: (lines.get ⟨i, h⟩).toList) ∧
    List.Pairwise (fun a b => a < b) (search_lines_with_token lines token) ∧
    (∀ table, inject_markdown_table_into_readme
        [AUTOGENERATED_NOTEBOOKS_TABLE_TOKEN ++ " and " ++ AUTOGENERATED_NOTEBOOKS_TABLE_TOKEN]
        table
      = Except.error (PyError.markerCount AUTOGENERATED_NOTEBOOKS_TABLE_TOKEN)) := by
  refine ⟨?_, pairwise_lt_search_from token 0 lines, ?_⟩
  · intro i
    rw [search_lines_with_token, mem_search_from_iff]
    constructor
    · rintro ⟨k, hk, hj, hc⟩
      have hik : i = k := by omega
      subst hik
      exact ⟨hk, (containsToken_correct _ _).mp hc⟩
    · rintro ⟨h, hc⟩
      exact ⟨i, h, by omega, (containsToken_correct _ _).mpr hc⟩
  · intro table
    exact inject_error_of_count_ne _ table (by decide)

/-! ### Claim theorems: the record parser -/

/-- C3 (code bug): the spec requires case-folded section tags, and the script
defines the case-folding `READMESection.from_value` accordingly, but
`from_csv_line` calls the case-sensitive enum constructor `READMESection(...)`
instead, so the tag `MODELS` is rejected with a plain `ValueError` even though
its lower-casing is in the valid set and the unused helper accepts it. -/
theorem from_csv_line_rejects_upper_case_section :
    TableEntry.from_csv_line ("cool model,cool.ipynb,,,,,MODELS")
      = Except.error (PyError.invalidSection ("MODELS")) ∧
    READMESection.from_value ("MODELS") = Except.ok READMESection.models := by
  constructor
  · rfl
  · rfl

/-- The enum lookup never raises the field-count message. -/
lemma READMESection.ofValue_ne_malformed (v : String) :
    READMESection.ofValue v ≠ Except.error PyError.malformedRecord := by
  unfold READMESection.ofValue
  by_cases h1 : v = "models" <;> by_cases h2 : v = "applied" <;> simp [h1, h2]

/-- C4: `from_csv_line` raises the field-count error exactly when splitting on
the comma delimiter does not yield 7 fields; with 7 fields and a valid section
tag, the whitespace-trimmed fields map positionally into the entry. -/
theorem from_csv_line_field_count (csv_line : String) :
    (TableEntry.from_csv_line csv_line = Except.error PyError.malformedRecord ↔
        (split_csv csv_line).length ≠ 7) ∧
    (∀ a b c d e f g sec,
        (split_csv csv_line).map pyStrip = [a, b, c, d, e, f, g] →
        READMESection.ofValue g = Except.ok sec →
        TableEntry.from_csv_line csv_line = Except.ok ⟨a, b, c, d, e, f, sec⟩) := by
  have hlen : (split_csv csv_line).length
      = ((split_csv csv_line).map pyStrip).length := by simp
  unfold TableEntry.from_csv_line
  rcases hxs : (split_csv csv_line).map pyStrip with
    _ | ⟨a0, _ | ⟨b0, _ | ⟨c0, _ | ⟨d0, _ | ⟨e0, _ | ⟨f0, _ | ⟨g0, _ | ⟨x0, rest⟩⟩⟩⟩⟩⟩⟩⟩ <;>
    rw [hxs] at hlen <;> simp only [List.length_nil, List.length_cons] at hlen
  · simp [hlen]
  · simp [hlen]
  · simp [hlen]
  · simp [hlen]
  · simp [hlen]
  · simp [hlen]
  · simp [hlen]
  · refine ⟨?_, ?_⟩
    · refine iff_of_false ?_ (by omega)
      rcases hov : READMESection.ofValue g0 with err | sec0
      · have herr := READMESection.ofValue_ne_malformed g0
        rw [hov] at herr
        simpa [hov] using herr
      · simp [hov]
    · intro a b c d e f g sec heq hsec
      simp only [List.cons.injEq, and_true] at heq
      obtain ⟨rfl, rfl, rfl, rfl, rfl, rfl, rfl⟩ := heq
      simp [hsec]
  · simp [hlen]

/-- Witness for C4 at a concrete valid line. -/
theorem from_csv_line_field_count_witness :
    TableEntry.from_csv_line (" a , nb ,c,d,e,f, models ")
      = Except.ok ⟨"a", "nb", "c", "d", "e", "f", READMESection.models⟩ :=
  (from_csv_line_field_count (" a , nb ,c,d,e,f, models ")).2
    "a" "nb" "c" "d" "e" "f" "models" READMESection.models (by rfl) (by rfl)

/-! ### Claim theorems: the pipeline writes nothing on failure -/

/-- C8: when parsing fails or the marker count is not exactly two, the run
ends in an error before `save_lines_to_file` runs, so nothing is written to
the target document. -/
theorem no_write_on_error (csv_lines readme_lines : List String)
    (h : (∃ e, parse_csv_lines csv_lines = Except.error e) ∨
        count_marker_lines readme_lines ≠ 2) :
    written_files csv_lines readme_lines = [] := by
  rcases h with ⟨e, he⟩ | hc
  · unfold written_files run_pipeline
    rw [he]
  · unfold written_files run_pipeline
    rcases hp : parse_csv_lines csv_lines with e | entries
    · rfl
    · show (match inject_markdown_table_into_readme readme_lines (build_table_lines entries) with
          | Except.ok lines => [lines]
          | Except.error _ => []) = []
      rw [inject_error_of_count_ne readme_lines (build_table_lines entries) hc]

/-- Witness for C8: a six-field data line aborts the run with nothing written. -/
theorem no_write_on_error_witness :
    written_files ["a,b,c,d,e,f"] ["plain line"] = [] :=
  no_write_on_error ["a,b,c,d,e,f"] ["plain line"]
    (Or.inl ⟨PyError.malformedRecord, by rfl⟩)

/-! ### Claim theorems: row and table rendering -/

lemma append_ne_empty_left (a b : String) (ha : a ≠ "") : a ++ b ≠ "" := by
  intro h
  apply ha
  apply String.ext
  have hd := congrArg String.data h
  rw [String.data_append] at hd
  exact (List.append_eq_nil.mp hd).1

/-- C6: every rendered row has the fixed four-cell pipe shape; the Colab and
Kaggle badges are always present, and each optional badge is the empty string
exactly when its source field is blank, otherwise the badge pattern applied to
the field. -/
theorem format_row_shape (entry : TableEntry) :
    ∃ roboflow_badge youtube_badge github_badge arxiv_badge : String,
      TableEntry.format entry
        = "| " ++ NOTEBOOK_LINK_PATTERN entry.display_name NOTEBOOKS_ROOT_PATH entry.notebook_name
          ++ " | " ++ OPEN_IN_COLAB_BADGE_PATTERN NOTEBOOKS_COLAB_ROOT_PATH entry.notebook_name
          ++ " " ++ OPEN_IN_KAGGLE_BADGE_PATTERN NOTEBOOKS_ROOT_PATH entry.notebook_name
          ++ " | " ++ roboflow_badge ++ " " ++ youtube_badge
          ++ " | " ++ github_badge ++ " " ++ arxiv_badge ++ "|" ∧
      OPEN_IN_COLAB_BADGE_PATTERN NOTEBOOKS_COLAB_ROOT_PATH entry.notebook_name ≠ "" ∧
      OPEN_IN_KAGGLE_BADGE_PATTERN NOTEBOOKS_ROOT_PATH entry.notebook_name ≠ "" ∧
      (roboflow_badge = "" ↔ entry.roboflow_blogpost_path = "") ∧
      (roboflow_badge ≠ "" →
        roboflow_badge = ROBOFLOW_BADGE_PATTERN entry.roboflow_blogpost_path) ∧
      (youtube_badge = "" ↔ entry.youtube_video_path = "") ∧
      (youtube_badge ≠ "" → youtube_badge = YOUTUBE_BADGE_PATTERN entry.youtube_video_path) ∧
      (github_badge = "" ↔ entry.github_repository_path = "") ∧
      (github_badge ≠ "" →
        github_badge = GITHUB_BADGE_PATTERN entry.github_repository_path) ∧
      (arxiv_badge = "" ↔ entry.arxiv_index = "") ∧
      (arxiv_badge ≠ "" → arxiv_badge = ARXIV_BADGE_PATTERN entry.arxiv_index) ∧
      (∃ cell1 cell2 cell3 cell4 : String,
        TableEntry.format entry
          = "|" ++ cell1 ++ "|" ++ cell2 ++ "|" ++ cell3 ++ "|" ++ cell4 ++ "|") := by
  have hcolab : OPEN_IN_COLAB_BADGE_PATTERN NOTEBOOKS_COLAB_ROOT_PATH entry.notebook_name ≠ "" := by
    unfold OPEN_IN_COLAB_BADGE_PATTERN
    repeat apply append_ne_empty_left
    decide
  have hkaggle : OPEN_IN_KAGGLE_BADGE_PATTERN NOTEBOOKS_ROOT_PATH entry.notebook_name ≠ "" := by
    unfold OPEN_IN_KAGGLE_BADGE_PATTERN
    repeat apply append_ne_empty_left
    decide
  have hrb : ∀ p : String, ROBOFLOW_BADGE_PATTERN p ≠ "" := by
    intro p
    unfold ROBOFLOW_BADGE_PATTERN
    repeat apply append_ne_empty_left
    decide
  have hyt : ∀ p : String, YOUTUBE_BADGE_PATTERN p ≠ "" := by
    intro p
    unfold YOUTUBE_BADGE_PATTERN
    repeat apply append_ne_empty_left
    decide
  have hgh : ∀ p : String, GITHUB_BADGE_PATTERN p ≠ "" := by
    intro p
    unfold GITHUB_BADGE_PATTERN
    repeat apply append_ne_empty_left
    decide
  have hax : ∀ p : String, ARXIV_BADGE_PATTERN p ≠ "" := by
    intro p
    unfold ARXIV_BADGE_PATTERN
    repeat apply append_ne_empty_left
    decide
  refine ⟨if entry.roboflow_blogpost_path ≠ "" then
            ROBOFLOW_BADGE_PATTERN entry.roboflow_blogpost_path else "",
          if entry.youtube_video_path ≠ "" then
            YOUTUBE_BADGE_PATTERN entry.youtube_video_path else "",
          if entry.github_repository_path ≠ "" then
            GITHUB_BADGE_PATTERN entry.github_repository_path else "",
          if entry.arxiv_index ≠ "" then ARXIV_BADGE_PATTERN entry.arxiv_index else "",
          rfl, hcolab, hkaggle, ?_, ?_, ?_, ?_, ?_, ?_, ?_, ?_, ?_⟩
  · by_cases h : entry.roboflow_blogpost_path = "" <;> simp [h, hrb]
  · by_cases h : entry.roboflow_blogpost_path = "" <;> simp [h]
  · by_cases h : entry.youtube_video_path = "" <;> simp [h, hyt]
  · by_cases h : entry.youtube_video_path = "" <;> simp [h]
  · by_cases h : entry.github_repository_path = "" <;> simp [h, hgh]
  · by_cases h : entry.github_repository_path = "" <;> simp [h]
  · by_cases h : entry.arxiv_index = "" <;> simp [h, hax]
  · by_cases h : entry.arxiv_index = "" <;> simp [h]
  · refine ⟨" " ++ NOTEBOOK_LINK_PATTERN entry.display_name NOTEBOOKS_ROOT_PATH
        entry.notebook_name ++ " ",
      " " ++ OPEN_IN_COLAB_BADGE_PATTERN NOTEBOOKS_COLAB_ROOT_PATH entry.notebook_name
        ++ " " ++ OPEN_IN_KAGGLE_BADGE_PATTERN NOTEBOOKS_ROOT_PATH entry.notebook_name ++ " ",
      " " ++ (if entry.roboflow_blogpost_path ≠ "" then
          ROBOFLOW_BADGE_PATTERN entry.roboflow_blogpost_path else "")
        ++ " " ++ (if entry.youtube_video_path ≠ "" then
          YOUTUBE_BADGE_PATTERN entry.youtube_video_path else "") ++ " ",
      " " ++ (if entry.github_repository_path ≠ "" then
          GITHUB_BADGE_PATTERN entry.github_repository_path else "")
        ++ " " ++ (if entry.arxiv_index ≠ "" then
          ARXIV_BADGE_PATTERN entry.arxiv_index else ""), ?_⟩
    apply String.ext
    simp [TableEntry.format, String.data_append, List.append_assoc]

/-- C7: the rendered table is the 4-line warning banner, the models section
header reporting the models-entry count, the 2-line table header, one row per
models entry in input order, then the applied section header with its count,
the table header again, and one row per applied entry in input order. -/
theorem build_table_lines_structure (table_entries : List TableEntry) :
    build_table_lines table_entries
      = WARNING_HEADER
        ++ [ MODELS_SECTION_HEADER
              (table_entries.filter
                (fun entry => entry.readme_section == READMESection.models)).length]
        ++ TABLE_HEADER
        ++ (table_entries.filter
              (fun entry => entry.readme_section == READMESection.models)).map
            TableEntry.format
        ++ [ APPLIED_SECTION_HEADER
              (table_entries.filter
                (fun entry => entry.readme_section == READMESection.applied)).length]
        ++ TABLE_HEADER
        ++ (table_entries.filter
              (fun entry => entry.readme_section == READMESection.applied)).map
            TableEntry.format ∧
    WARNING_HEADER.length = 4 ∧ TABLE_HEADER.length = 2 := by
  refine ⟨?_, rfl, rfl⟩
  unfold build_table_lines
  simp [List.length_map, List.append_assoc]

/-! ### Claim theorems: the display-link round trip -/

lemma splitAtLinkDelim_append (d rest : List Char)
    (hd : hasInfix [']', '('] d = false) :
    splitAtLinkDelim (d ++ ']' :: '(' :: rest) = some (d, rest) := by
  induction d with
  | nil => simp [splitAtLinkDelim]
  | cons c d ih =>
      rw [hasInfix, Bool.or_eq_false_iff] at hd
      obtain ⟨hpre, htail⟩ := hd
      have hcond : ¬(c = ']' ∧ (d ++ ']' :: '(' :: rest).head? = some '(') := by
        rintro ⟨rfl, hhead⟩
        cases d with
        | nil => simp at hhead
        | cons c2 d2 =>
            simp at hhead
            subst hhead
            simp [List.isPrefixOf] at hpre
      simp only [List.cons_append, splitAtLinkDelim, List.append_eq, ih htail]
      rw [if_neg hcond]

/-- C9 counterexample: two distinct valid seven-field CSV lines render
identical display links, so re-parsing the link cannot recover the original
fields; at the second line the re-parser indeed returns a different pair. -/
theorem link_roundtrip_counterexample :
    TableEntry.from_csv_line ("a,b](" ++ NOTEBOOKS_ROOT_PATH ++ "/c,,,,,models")
      = Except.ok ⟨"a", "b](" ++ NOTEBOOKS_ROOT_PATH ++ "/c", "", "", "", "",
          READMESection.models⟩ ∧
    TableEntry.from_csv_line ("a](" ++ NOTEBOOKS_ROOT_PATH ++ "/b,c,,,,,models")
      = Except.ok ⟨"a](" ++ NOTEBOOKS_ROOT_PATH ++ "/b", "c", "", "", "", "",
          READMESection.models⟩ ∧
    NOTEBOOK_LINK_PATTERN "a" NOTEBOOKS_ROOT_PATH ("b](" ++ NOTEBOOKS_ROOT_PATH ++ "/c")
      = NOTEBOOK_LINK_PATTERN ("a](" ++ NOTEBOOKS_ROOT_PATH ++ "/b")
          NOTEBOOKS_ROOT_PATH "c" ∧
    ("a" : String) ≠ "a](" ++ NOTEBOOKS_ROOT_PATH ++ "/b" ∧
    parse_notebook_link (NOTEBOOK_LINK_PATTERN ("a](" ++ NOTEBOOKS_ROOT_PATH ++ "/b")
        NOTEBOOKS_ROOT_PATH "c")
      ≠ some ("a](" ++ NOTEBOOKS_ROOT_PATH ++ "/b", "c") := by
  refine ⟨by rfl, by rfl, by decide, by decide, by decide⟩

/-- C9 (amended): for every valid seven-field CSV line whose trimmed display
name does not contain the substring `](`, parsing, rendering the display link
and re-parsing it recovers the display name and notebook name. -/
theorem link_roundtrip_of_clean_display (csv_line : String) (entry : TableEntry)
    (_hparse : TableEntry.from_csv_line csv_line = Except.ok entry)
    (hclean : containsToken ("](") entry.display_name = false) :
    parse_notebook_link
        (NOTEBOOK_LINK_PATTERN entry.display_name NOTEBOOKS_ROOT_PATH entry.notebook_name)
      = some (entry.display_name, entry.notebook_name) := by
  have hdata : (NOTEBOOK_LINK_PATTERN entry.display_name NOTEBOOKS_ROOT_PATH
      entry.notebook_name).toList
      = '[' :: (entry.display_name.toList ++ ']' :: '(' ::
          ((NOTEBOOKS_ROOT_PATH ++ "/").toList ++ (entry.notebook_name.toList ++ [')']))) := by
    show (NOTEBOOK_LINK_PATTERN entry.display_name NOTEBOOKS_ROOT_PATH
          entry.notebook_name).data = _
    simp only [NOTEBOOK_LINK_PATTERN, String.data_append, List.append_assoc]
    rfl
  unfold parse_notebook_link
  rw [hdata]
  have hsplit := splitAtLinkDelim_append entry.display_name.toList
    ((NOTEBOOKS_ROOT_PATH ++ "/").toList ++ (entry.notebook_name.toList ++ [')'])) hclean
  have hprefix : (NOTEBOOKS_ROOT_PATH ++ "/").toList.isPrefixOf
      ((NOTEBOOKS_ROOT_PATH ++ "/").toList ++ (entry.notebook_name.toList ++ [')'])) = true :=
    List.isPrefixOf_iff_prefix.mpr (List.prefix_append _ _)
  simp only [hsplit, hprefix, if_true, List.drop_left, List.getLast?_concat,
    List.dropLast_concat]
  simp

/-- Witness for the amended C9 at a concrete valid line. -/
theorem link_roundtrip_of_clean_display_witness :
    parse_notebook_link (NOTEBOOK_LINK_PATTERN "disp" NOTEBOOKS_ROOT_PATH "nb")
      = some ("disp", "nb") :=
  link_roundtrip_of_clean_display ("disp,nb,,,,,models")
    ⟨"disp", "nb", "", "", "", "", READMESection.models⟩ (by rfl) (by rfl)

end Notebooks
